import Mathlib

/-!
# Verification of the beam-report engine

Shallow embedding of the structural-analysis core of the repository
(`generate_report.py` and `scripts/plot_contour_diagrams.py`): the column
Loader, the equilibrium Solver, the diagram Sampler and the
precomputed-diagram Adapter.  Real numbers of the Python code are modelled
as rationals (`ℚ`); the float literals `1e-12` and `1.2` are modelled as the
exact rationals `1/10^12` and `6/5`.  Fallible steps return
`Except BeamError`.
-/

namespace Beam

/-- A single point load: `position` (distance from the left support) and
`magnitude` (signed, positive downward). Mirrors one row of the `forces`
dataframe of `generate_report.py` after coercion to float. -/
structure LoadPoint where
  pos : ℚ
  mag : ℚ
  deriving DecidableEq, Repr

/-- Error kinds raised by the pipeline, one constructor per distinct error
site of the source: `FileNotFoundError` in `read_forces`/`main`
(source unavailable), the strict-schema `ValueError` of
`plot_contour_diagrams.load_data` (schema), the coercion `ValueError` of
`read_forces` (type), the three `ValueError`s of `validate_forces`
(empty input / negative position / missing magnitude), the spec's
`DomainError` for a non-positive span, and the pandas `IndexError` that
escapes the first-two-columns fallback of `read_forces`. -/
inductive BeamError where
  | sourceUnavailable
  | schemaError
  | typeError
  | emptyInput
  | rangeError
  | missingValue
  | domainError
  | indexError
  deriving DecidableEq, Repr

/-- `forces["mag"].sum()` of `compute_reactions`. -/
def totalLoad (forces : List LoadPoint) : ℚ :=
  (forces.map (fun r => r.mag)).sum

/-- `(forces["mag"] * forces["pos"]).sum()` of `compute_reactions`. -/
def momentAboutA (forces : List LoadPoint) : ℚ :=
  (forces.map (fun r => r.mag * r.pos)).sum

/-- `compute_reactions(forces, L)` of `generate_report.py` (lines 68-75):
`RB = moment_about_A / L`, `RA = total_load - RB`, returned as `(RA, RB)`. -/
def compute_reactions (forces : List LoadPoint) (L : ℚ) : ℚ × ℚ :=
  let RB := momentAboutA forces / L
  (totalLoad forces - RB, RB)

/-- `compute_reactions` wrapped in the pipeline's error channel.  The body of
the Python function contains no guard on `L` and no statement that can raise:
`moment_about_A` is a numpy float, and numpy float division by zero produces
IEEE `inf`/`nan` values (with a warning) instead of an exception, so the
function returns a pair for every input.  (Rational division by zero returns
`0` where the floats would be non-finite; no theorem below depends on the
numeric value at `L = 0`, only on the absence of an error.) -/
def compute_reactions_checked (forces : List LoadPoint) (L : ℚ) :
    Except BeamError (ℚ × ℚ) :=
  Except.ok (compute_reactions forces L)

/-- The absolute tie-break tolerance `1e-12` of `sample_sfd_bmd`, as an exact
rational. -/
def tol : ℚ := 1 / 1000000000000

/-- The shear value the inner loop of `sample_sfd_bmd` computes at one sample
point `x`: start from `V = RA` and subtract `P` for every load with
`a <= x + 1e-12`. -/
def shearAt (forces : List LoadPoint) (RA x : ℚ) : ℚ :=
  RA - ((forces.filter (fun r => r.pos ≤ x + tol)).map (fun r => r.mag)).sum

/-- The moment value the inner loop of `sample_sfd_bmd` computes at one sample
point `x`: start from `M = RA * x` and subtract `P * (x - a)` for every load
with `a <= x + 1e-12`. -/
def momentAt (forces : List LoadPoint) (RA x : ℚ) : ℚ :=
  RA * x -
    ((forces.filter (fun r => r.pos ≤ x + tol)).map
      (fun r => r.mag * (x - r.pos))).sum

/-- `np.linspace(0, L, num)`: `num` evenly spaced points from `0` to `L`
inclusive; point `i` is `L * i / (num - 1)` (numpy pins the endpoints
exactly, which the exact rational formula reproduces). -/
def linspace (L : ℚ) (num : ℕ) : List ℚ :=
  (List.range num).map (fun i : ℕ => L * (i : ℚ) / ((num : ℚ) - 1))

/-- `sample_sfd_bmd(forces, L, RA, num)` of `generate_report.py`
(lines 78-96): the triple of the sampled x grid and the per-point shear and
moment values. -/
def sample_sfd_bmd (forces : List LoadPoint) (L RA : ℚ) (num : ℕ) :
    List ℚ × List ℚ × List ℚ :=
  let x := linspace L num
  (x, x.map (shearAt forces RA), x.map (momentAt forces RA))

/-- The span the orchestration derives when none is given
(`generate_report.py` line 252):
`max(forces["pos"].max() * 1.2, forces["pos"].max() + 1.0)` for a non-empty
load set and the fallback `10.0` otherwise.  `1.2` is modelled as `6/5`. -/
def maxPos : List LoadPoint → ℚ
  | [] => 0
  | r :: rs => rs.foldl (fun m s => max m s.pos) r.pos

/-- Derived beam length `L` of `main` (`generate_report.py` lines 251-254). -/
def derive_span (forces : List LoadPoint) : ℚ :=
  if forces.isEmpty then 10
  else max (maxPos forces * (6 / 5)) (maxPos forces + 1)

/-- The position-role keyword set of `read_forces` (line 37):
`("pos", "x", "dist", "location", "a")`. -/
def posKeys : List String := ["pos", "x", "dist", "location", "a"]

/-- The magnitude-role keyword set of `read_forces` (line 38):
`("load", "force", "p", "w", "magnitude")`. -/
def magKeys : List String := ["load", "force", "p", "w", "magnitude"]

/-- Auxiliary for substring containment: `key` is a prefix of `l`. -/
def isPrefOf : List Char → List Char → Bool
  | [], _ => true
  | _ :: _, [] => false
  | a :: as, b :: bs => a == b && isPrefOf as bs

/-- Auxiliary for substring containment: `key` occurs contiguously in `l`. -/
def hasSubList (key : List Char) : List Char → Bool
  | [] => isPrefOf key []
  | c :: cs => isPrefOf key (c :: cs) || hasSubList key cs

/-- Python's `k in c` on strings: `key` is a contiguous substring of `s`. -/
def containsSub (s key : String) : Bool :=
  hasSubList key.data s.data

/-- Python's `c.lower()`, character by character.  (`Char.toLower` lowercases
the ASCII range only, which agrees with `str.lower` on every column name the
claims use.) -/
def toLowerStr (s : String) : String :=
  ⟨s.data.map Char.toLower⟩

/-- The candidate filter of `read_forces` (lines 37-38):
`[c for c in cols if any(k in c for k in keys)]` over the lowercased column
names. -/
def candidateCols (keys cols : List String) : List String :=
  cols.filter (fun c => keys.any (fun k => containsSub c k))

/-- Column resolution of `read_forces` (lines 35-45), returning the pair of
column indices the two-column projection `df[[pos_col, mag_col]]` selects.
`cols` is the lowercased column list; when both candidate lists are
non-empty the first candidate of each is looked up with `cols.index` (first
occurrence); otherwise the fallback takes the first two columns, and a table
with fewer than two columns makes `df.columns[0]` / `df.columns[1]` raise a
pandas `IndexError`.  (Label-based selection coincides with positional
selection here because every claim uses pairwise distinct lowercased names.) -/
def resolve_idx (columns : List String) : Except BeamError (ℕ × ℕ) :=
  let cols := columns.map toLowerStr
  let posCands := candidateCols posKeys cols
  let magCands := candidateCols magKeys cols
  if !posCands.isEmpty && !magCands.isEmpty then
    Except.ok (cols.indexOf (posCands.headD ""), cols.indexOf (magCands.headD ""))
  else
    match columns with
    | _ :: _ :: _ => Except.ok (0, 1)
    | _ => Except.error BeamError.indexError

/-- The resolved column names (`pos_col`, `mag_col`) of `read_forces`. -/
def resolve_cols (columns : List String) : Except BeamError (String × String) :=
  match resolve_idx columns with
  | Except.error e => Except.error e
  | Except.ok ij => Except.ok (columns.getD ij.1 "", columns.getD ij.2 "")

/-- One cell of the tabular input, as pandas reads it from the sheet:
`null` is a pandas NA (empty cell / `None` / a NaN float), which `dropna()`
removes; `num q` is a numeric cell; `nanText` is a non-null *text* cell such
as `"NAN"` or `"Nan"` — not in pandas' default NA-string list, so it survives
both `read_excel` and `dropna()`, and `astype(float)` coerces it to the IEEE
NaN (Python's `float("NAN")` parses, it does not raise).  Text that
`float(...)` cannot parse, which makes `astype(float)` raise the coercion
`ValueError`, is not modelled: no claim exercises that path. -/
inductive Cell where
  | null
  | num (q : ℚ)
  | nanText
  deriving DecidableEq, Repr

/-- A float value of the coerced `pos`/`mag` columns: a finite rational or
the IEEE NaN produced by coercing NaN-text. -/
inductive FloatVal where
  | num (q : ℚ)
  | nan
  deriving DecidableEq, Repr

/-- One row of the projected two-column frame after `dropna()` and
`astype(float)`: position and magnitude as float values that may be NaN. -/
structure RawLoad where
  pos : FloatVal
  mag : FloatVal
  deriving DecidableEq, Repr

/-- The tabular input the Loader reads: named columns and rows of cells. -/
structure Table where
  cols : List String
  rows : List (List Cell)

/-- `astype(float)` on one cell: numbers stay, NaN-text becomes NaN.  (On a
null cell — which `dropnaProject` never passes here — `astype(float)` also
yields NaN, which the catch-all matches.) -/
def coerceCell : Cell → FloatVal
  | Cell.num q => FloatVal.num q
  | _ => FloatVal.nan

/-- The row pipeline of `read_forces` after column resolution (lines 46-56):
project each row to the two selected columns (`df[[pos_col, mag_col]]`),
`dropna()` the rows that have a null in either — NaN-text is *not* null at
this point, it is still a string — and coerce the survivors to float. -/
def dropnaProject (i j : ℕ) (rows : List (List Cell)) : List RawLoad :=
  rows.filterMap (fun row =>
    match row.getD i Cell.null, row.getD j Cell.null with
    | Cell.null, _ => none
    | _, Cell.null => none
    | p, m => some ⟨coerceCell p, coerceCell m⟩)

/-- `sort_values("pos")` comparison on coerced positions: numeric positions
compare by `≤`, and NaN sorts after everything (pandas' default
`na_position="last"`). -/
def posLe (a b : RawLoad) : Bool :=
  match a.pos, b.pos with
  | FloatVal.num p, FloatVal.num q => decide (p ≤ q)
  | FloatVal.num _, FloatVal.nan => true
  | FloatVal.nan, FloatVal.num _ => false
  | FloatVal.nan, FloatVal.nan => true

/-- `read_forces` of `generate_report.py` (lines 29-56), minus the file read:
resolve the two columns, project/`dropna`/coerce the rows, and
`sort_values("pos")` ascending. -/
def read_forces (t : Table) : Except BeamError (List RawLoad) :=
  match resolve_idx t.cols with
  | Except.error e => Except.error e
  | Except.ok ij =>
      Except.ok ((dropnaProject ij.1 ij.2 t.rows).mergeSort posLe)

/-- `forces["pos"] < 0` on one coerced position, as tested by
`validate_forces` (line 62): an IEEE comparison, false on NaN. -/
def posNeg : FloatVal → Bool
  | FloatVal.num q => decide (q < 0)
  | FloatVal.nan => false

/-- `forces["mag"].isnull()` on one coerced magnitude, as tested by
`validate_forces` (line 64): true exactly on NaN.  The check is reachable:
a NaN-text magnitude survives `dropna()` and `astype(float)` turns it into
NaN, which `isnull()` reports as missing. -/
def magIsNull : FloatVal → Bool
  | FloatVal.num _ => false
  | FloatVal.nan => true

/-- `validate_forces` of `generate_report.py` (lines 59-65): empty input,
negative position, then missing magnitude, each raising a `ValueError`,
modelled with the spec's error kinds. -/
def validate_forces (forces : List RawLoad) : Except BeamError Unit :=
  if forces.isEmpty then Except.error BeamError.emptyInput
  else if forces.any (fun r => posNeg r.pos) then
    Except.error BeamError.rangeError
  else if forces.any (fun r => magIsNull r.mag) then
    Except.error BeamError.missingValue
  else Except.ok ()

/-- The Loader-then-Validator pipeline of `main` (`generate_report.py`
lines 245-250): `read_forces` followed by `validate_forces`, propagating the
first error. -/
def load_and_validate (t : Table) : Except BeamError (List RawLoad) :=
  match read_forces t with
  | Except.error e => Except.error e
  | Except.ok fs =>
      match validate_forces fs with
      | Except.error e => Except.error e
      | Except.ok _ => Except.ok fs

/-- A precomputed diagram series: the x / shear / moment columns the strict
Loader of `scripts/plot_contour_diagrams.py` produces. -/
structure Series where
  x : List ℚ
  shear : List ℚ
  moment : List ℚ
  deriving DecidableEq, Repr

/-- The precomputed-diagram Adapter: the data flow of
`plot_contour_diagrams.main` (lines 94-102) from a loaded series to the
triples handed to the plotters.  `x` and `shear` are copied unchanged;
`moment` is copied and then `moment[0] = 0.0; moment[-1] = 0.0` (Python's
index `-1` is index `length - 1`; on an empty array numpy would raise, while
`List.set` is a no-op — no claim evaluates the Adapter on an empty series).
The second component records the reactions available on this path: `main`
never calls any reaction computation, so it is always `none`. -/
def adapter (s : Series) : Series × Option (ℚ × ℚ) :=
  ({ x := s.x
     shear := s.shear
     moment := (s.moment.set 0 0).set (s.moment.length - 1) 0 },
   none)

end Beam

namespace Beam

/-! ## Helper lemmas -/

theorem totalLoad_cons (a : LoadPoint) (t : List LoadPoint) :
    totalLoad (a :: t) = a.mag + totalLoad t := by
  simp [totalLoad]

theorem momentAboutA_cons (a : LoadPoint) (t : List LoadPoint) :
    momentAboutA (a :: t) = a.mag * a.pos + momentAboutA t := by
  simp [momentAboutA]

theorem tol_pos : 0 < tol := by
  norm_num [tol]

/-- The load-by-load moment sum at the right support, rearranged:
`Σ mag_i * (L - pos_i) = L * Σ mag_i - Σ mag_i * pos_i`. -/
theorem sum_mag_mul_sub (L : ℚ) (l : List LoadPoint) :
    (l.map (fun r => r.mag * (L - r.pos))).sum =
      L * totalLoad l - momentAboutA l := by
  induction l with
  | nil => simp [totalLoad, momentAboutA]
  | cons a t ih =>
      rw [List.map_cons, List.sum_cons, ih, totalLoad_cons, momentAboutA_cons]
      ring

/-! ## C1 -/

/-- C1 fails on the code: for loads [(2,10),(6,10)] and L = 10,
`compute_reactions` returns (R_A, R_B) = (12, 8), not the (10, 10) the spec
scenario expects (those values would require a symmetric load arrangement). -/
theorem C1_counterexample :
    compute_reactions [⟨2, 10⟩, ⟨6, 10⟩] 10 = (12, 8) ∧
    compute_reactions [⟨2, 10⟩, ⟨6, 10⟩] 10 ≠ ((10 : ℚ), (10 : ℚ)) := by
  have h : compute_reactions [⟨2, 10⟩, ⟨6, 10⟩] 10 = (12, 8) := by
    simp [compute_reactions, totalLoad, momentAboutA]
    norm_num
  refine ⟨h, ?_⟩
  rw [h]
  intro hc
  have := congrArg Prod.fst hc
  norm_num at this

/-- C1 amended: for loads [(2,10),(6,10)] and L = 10 the Solver returns
R_A = 12, R_B = 8; the sampled shear is 12 at every point left of the first
load (up to the 1e-12 tie-break), 2 between the loads, and -8 from the second
load on; the sampled moment is 24 at x = 2, 32 at x = 6, and 0 at both
supports. -/
theorem C1_amended :
    compute_reactions [⟨2, 10⟩, ⟨6, 10⟩] 10 = (12, 8) ∧
    (∀ x : ℚ, 0 ≤ x → x + tol < 2 → shearAt [⟨2, 10⟩, ⟨6, 10⟩] 12 x = 12) ∧
    (∀ x : ℚ, 2 ≤ x → x + tol < 6 → shearAt [⟨2, 10⟩, ⟨6, 10⟩] 12 x = 2) ∧
    (∀ x : ℚ, 6 ≤ x → shearAt [⟨2, 10⟩, ⟨6, 10⟩] 12 x = -8) ∧
    momentAt [⟨2, 10⟩, ⟨6, 10⟩] 12 2 = 24 ∧
    momentAt [⟨2, 10⟩, ⟨6, 10⟩] 12 6 = 32 ∧
    momentAt [⟨2, 10⟩, ⟨6, 10⟩] 12 0 = 0 ∧
    momentAt [⟨2, 10⟩, ⟨6, 10⟩] 12 10 = 0 := by
  have htol : (0 : ℚ) < tol := tol_pos
  refine ⟨?_, ?_, ?_, ?_, ?_, ?_, ?_, ?_⟩
  · simp [compute_reactions, totalLoad, momentAboutA]
    norm_num
  · intro x _ h2
    have hn2 : ¬ ((2 : ℚ) ≤ x + tol) := by linarith
    have hn6 : ¬ ((6 : ℚ) ≤ x + tol) := by linarith
    simp [shearAt, hn2, hn6]
  · intro x h2 h6
    have hy2 : ((2 : ℚ) ≤ x + tol) := by linarith
    have hn6 : ¬ ((6 : ℚ) ≤ x + tol) := by linarith
    simp [shearAt, hy2, hn6]
    norm_num
  · intro x h6
    have hy2 : ((2 : ℚ) ≤ x + tol) := by linarith
    have hy6 : ((6 : ℚ) ≤ x + tol) := by linarith
    simp [shearAt, hy2, hy6]
    norm_num
  · have hy2 : ((2 : ℚ) ≤ 2 + tol) := by linarith
    have hn6 : ¬ ((6 : ℚ) ≤ 2 + tol) := by norm_num [tol]
    simp [momentAt, hy2, hn6]
    norm_num
  · have hy2 : ((2 : ℚ) ≤ 6 + tol) := by linarith
    have hy6 : ((6 : ℚ) ≤ 6 + tol) := by linarith
    simp [momentAt, hy2, hy6]
    norm_num
  · have hn2 : ¬ ((2 : ℚ) ≤ tol) := by norm_num [tol]
    have hn6 : ¬ ((6 : ℚ) ≤ tol) := by norm_num [tol]
    simp [momentAt, hn2, hn6]
  · have hy2 : ((2 : ℚ) ≤ 10 + tol) := by norm_num [tol]
    have hy6 : ((6 : ℚ) ≤ 10 + tol) := by norm_num [tol]
    simp [momentAt, hy2, hy6]
    norm_num

/-- Witness for C1's amended interval statements at sample points 1, 3, 7. -/
theorem C1_witness :
    shearAt [⟨2, 10⟩, ⟨6, 10⟩] 12 1 = 12 ∧
    shearAt [⟨2, 10⟩, ⟨6, 10⟩] 12 3 = 2 ∧
    shearAt [⟨2, 10⟩, ⟨6, 10⟩] 12 7 = -8 :=
  ⟨C1_amended.2.1 1 (by norm_num) (by norm_num [tol]),
   C1_amended.2.2.1 3 (by norm_num) (by norm_num [tol]),
   C1_amended.2.2.2.1 7 (by norm_num)⟩

/-! ## C2 -/

/-- C2 fails on the code: with columns declared as [Position_m, Load_N], the
Loader resolves the magnitude role to `Position_m` (whose lowercasing
contains the magnitude keyword "p"), not to `Load_N`. -/
theorem C2_counterexample :
    resolve_cols ["Position_m", "Load_N"] =
      Except.ok ("Position_m", "Position_m") ∧
    resolve_cols ["Position_m", "Load_N"] ≠
      Except.ok ("Position_m", "Load_N") := by
  refine ⟨rfl, ?_⟩
  intro h
  have h0 : resolve_cols ["Position_m", "Load_N"] =
      Except.ok ("Position_m", "Position_m") := rfl
  have h1 := Except.ok.inj (h0.symm.trans h)
  have h2 := congrArg Prod.snd h1
  exact absurd h2 (by decide)

/-- C2 amended: for a two-column table with columns `Position_m` and `Load_N`
in either declaration order, the Loader resolves both the position and the
magnitude role to the first-declared column: "position_m" contains the
magnitude keyword "p" and "load_n" contains the position keyword "a", so the
first column heads both candidate lists. -/
theorem C2_amended :
    resolve_cols ["Position_m", "Load_N"] =
      Except.ok ("Position_m", "Position_m") ∧
    resolve_cols ["Load_N", "Position_m"] =
      Except.ok ("Load_N", "Load_N") :=
  ⟨rfl, rfl⟩

/-! ## C6 -/

/-- C6: for every load set (including the empty one) and every L > 0 the
Solver returns R_B = (Σ mag_i * pos_i) / L and R_A = Σ mag_i - R_B, so
R_A + R_B equals the total load exactly, hence within the 1e-9 relative
tolerance; the empty load set gives R_A = R_B = 0. -/
theorem C6_solver_equilibrium (forces : List LoadPoint) (L : ℚ) (_hL : 0 < L) :
    (compute_reactions forces L).2 = momentAboutA forces / L ∧
    (compute_reactions forces L).1 = totalLoad forces - momentAboutA forces / L ∧
    (compute_reactions forces L).1 + (compute_reactions forces L).2 =
      totalLoad forces ∧
    |(compute_reactions forces L).1 + (compute_reactions forces L).2 -
      totalLoad forces| ≤ (1 / 1000000000) * |totalLoad forces| ∧
    compute_reactions [] L = (0, 0) := by
  have hsum : (compute_reactions forces L).1 + (compute_reactions forces L).2 =
      totalLoad forces := by
    simp [compute_reactions]
  refine ⟨rfl, rfl, hsum, ?_, ?_⟩
  · rw [hsum]
    simp
  · simp [compute_reactions, totalLoad, momentAboutA]

/-- Witness for C6 at the two-load scenario with L = 10. -/
theorem C6_witness :
    (compute_reactions [⟨2, 10⟩, ⟨6, 10⟩] 10).1 +
      (compute_reactions [⟨2, 10⟩, ⟨6, 10⟩] 10).2 =
      totalLoad [⟨2, 10⟩, ⟨6, 10⟩] :=
  (C6_solver_equilibrium [⟨2, 10⟩, ⟨6, 10⟩] 10 (by norm_num)).2.2.1

/-! ## C3 -/

/-- Setting an entry that already holds the written value is the identity. -/
theorem set_zero_of_getD (l : List ℚ) :
    ∀ i : ℕ, l.getD i 0 = 0 → l.set i 0 = l := by
  induction l with
  | nil => intro i _; rfl
  | cons a t ih =>
      intro i h
      cases i with
      | zero => simp only [List.getD_cons_zero] at h; simp [h]
      | succ n =>
          simp only [List.getD_cons_succ] at h
          simp [ih n h]

/-- C3 fails on the code: a validated series whose end moments are nonzero is
modified by the Adapter, which overwrites `moment[0]` and `moment[-1]` with
`0.0` before plotting. -/
theorem C3_counterexample :
    (adapter ⟨[0, 5, 10], [3, 3, -2], [1, 15, 2]⟩).1.moment = [0, 15, 0] ∧
    (adapter ⟨[0, 5, 10], [3, 3, -2], [1, 15, 2]⟩).1 ≠
      ⟨[0, 5, 10], [3, 3, -2], [1, 15, 2]⟩ := by
  refine ⟨rfl, ?_⟩
  intro h
  have hm := congrArg Series.moment h
  have h0 : (adapter ⟨[0, 5, 10], [3, 3, -2], [1, 15, 2]⟩).1.moment =
      [0, 15, 0] := rfl
  rw [h0] at hm
  have := congrArg (fun l => l.getD 0 1) hm
  norm_num at this

/-- C3 amended: the Adapter passes `x` and `shear` through unchanged and
produces no ReactionPair, but it overwrites the first and the last `moment`
entry with 0; a series whose end moments are already 0 — in particular
x = [0,5,10], shear = [3,3,-2], moment = [0,15,0] — passes through exactly
unchanged. -/
theorem C3_amended :
    (∀ s : Series, (adapter s).1.x = s.x ∧ (adapter s).1.shear = s.shear ∧
      (adapter s).2 = none) ∧
    (∀ s : Series, s.moment.getD 0 0 = 0 →
      s.moment.getD (s.moment.length - 1) 0 = 0 → (adapter s).1 = s) ∧
    adapter ⟨[0, 5, 10], [3, 3, -2], [0, 15, 0]⟩ =
      (⟨[0, 5, 10], [3, 3, -2], [0, 15, 0]⟩, none) := by
  refine ⟨fun s => ⟨rfl, rfl, rfl⟩, ?_, rfl⟩
  intro s h0 hlast
  cases s with
  | mk xs sh mo =>
      simp only at h0 hlast
      have hm : ((mo.set 0 0).set (mo.length - 1) 0) = mo := by
        rw [set_zero_of_getD mo 0 h0]
        exact set_zero_of_getD mo (mo.length - 1) hlast
      simp [adapter, hm]

/-- Witness for C3's amended passthrough at the spec's concrete series. -/
theorem C3_witness :
    (adapter ⟨[0, 5, 10], [3, 3, -2], [0, 15, 0]⟩).1 =
      ⟨[0, 5, 10], [3, 3, -2], [0, 15, 0]⟩ :=
  C3_amended.2.1 ⟨[0, 5, 10], [3, 3, -2], [0, 15, 0]⟩ rfl rfl

/-! ## C4 -/

/-- C4 fails on the code: `compute_reactions` has no span-length guard, so a
span of 0 does not produce a `DomainError`; the call returns a ReactionPair
normally (numpy float division by zero yields non-finite values instead of
raising). -/
theorem C4_counterexample :
    (compute_reactions_checked [⟨2, 10⟩] 0).isOk = true ∧
    compute_reactions_checked [⟨2, 10⟩] 0 ≠
      Except.error BeamError.domainError := by
  refine ⟨rfl, ?_⟩
  intro h
  exact absurd h (by simp [compute_reactions_checked])

/-- C4 amended: the Solver validates nothing about the span: for every load
set and every L — including L = 0 — it returns a ReactionPair and raises no
error of any kind. -/
theorem C4_amended (forces : List LoadPoint) (L : ℚ) (e : BeamError) :
    (compute_reactions_checked forces L).isOk = true ∧
    compute_reactions_checked forces L ≠ Except.error e := by
  exact ⟨rfl, by simp [compute_reactions_checked]⟩

/-- Witness for C4's amended no-error statement at the empty load set, L = 0. -/
theorem C4_witness :
    (compute_reactions_checked [] 0).isOk = true ∧
    compute_reactions_checked [] 0 ≠ Except.error BeamError.domainError :=
  C4_amended [] 0 BeamError.domainError

/-! ## C5 -/

/-- `validate_forces` does not return `MissingValueError` when no magnitude
of its input is NaN. -/
theorem validate_forces_ne_missing (fs : List RawLoad)
    (h : fs.any (fun r => magIsNull r.mag) = false) :
    validate_forces fs ≠ Except.error BeamError.missingValue := by
  unfold validate_forces
  rw [h]
  split
  · simp
  · split
    · simp
    · simp

/-- A `getD` hit that differs from the default is a member of the list. -/
theorem getD_mem_of_ne {α : Type} (l : List α) (d : α) :
    ∀ j : ℕ, l.getD j d ≠ d → l.getD j d ∈ l := by
  induction l with
  | nil =>
      intro j h
      exact absurd (List.getD_nil) h
  | cons a t ih =>
      intro j h
      cases j with
      | zero => rw [List.getD_cons_zero]; exact List.mem_cons_self a t
      | succ n =>
          rw [List.getD_cons_succ] at h ⊢
          exact List.mem_cons_of_mem a (ih n h)

/-- Rows free of NaN-text cells yield only magnitudes that `isnull()`
reports as present. -/
theorem dropnaProject_mag_not_nan (i j : ℕ) (rows : List (List Cell))
    (hclean : ∀ row ∈ rows, ∀ c ∈ row, c ≠ Cell.nanText) :
    ∀ a ∈ dropnaProject i j rows, magIsNull a.mag = false := by
  intro a ha
  obtain ⟨row, hrow, hsome⟩ := List.mem_filterMap.mp ha
  have hnot : ∀ k : ℕ, row.getD k Cell.null ≠ Cell.nanText := by
    intro k hk
    have hmem : Cell.nanText ∈ row :=
      hk ▸ getD_mem_of_ne row Cell.null k (by rw [hk]; intro hc; cases hc)
    exact hclean row hrow Cell.nanText hmem rfl
  revert hsome
  cases hp : row.getD i Cell.null with
  | null =>
      intro hsome
      simp at hsome
  | nanText => exact absurd hp (hnot i)
  | num p =>
      cases hm : row.getD j Cell.null with
      | null =>
          intro hsome
          simp at hsome
      | nanText => exact absurd hm (hnot j)
      | num m =>
          intro hsome
          have ha' := Option.some.inj hsome
          subst ha'
          rfl

/-- `resolve_idx` can fail only with the fallback's `IndexError`. -/
theorem resolve_idx_error (columns : List String) (e : BeamError)
    (h : resolve_idx columns = Except.error e) : e = BeamError.indexError := by
  simp only [resolve_idx] at h
  repeat' split at h
  all_goals first
    | exact (Except.error.inj h).symm
    | exact absurd h (by simp)

/-- C5 fails on the code: `read_forces` drops the null row with `dropna()`
before `validate_forces` runs, so a table whose second row has a null
magnitude passes the pipeline with that row silently removed, instead of
failing with `MissingValueError`. -/
theorem C5_counterexample :
    (((⟨["x", "force"],
        [[Cell.num 1, Cell.num 2], [Cell.num 3, Cell.null]]⟩ :
      Table).rows.getD 1 []).getD 1 (Cell.num 0)) = Cell.null ∧
    load_and_validate
        ⟨["x", "force"], [[Cell.num 1, Cell.num 2], [Cell.num 3, Cell.null]]⟩ =
      Except.ok [⟨FloatVal.num 1, FloatVal.num 2⟩] := by
  refine ⟨rfl, ?_⟩
  have hread : read_forces
      ⟨["x", "force"], [[Cell.num 1, Cell.num 2], [Cell.num 3, Cell.null]]⟩ =
      Except.ok [⟨FloatVal.num 1, FloatVal.num 2⟩] := by
    have hres : resolve_idx ["x", "force"] = Except.ok (0, 1) := rfl
    unfold read_forces
    rw [hres]
    have hdrop : dropnaProject 0 1
        [[Cell.num 1, Cell.num 2], [Cell.num 3, Cell.null]] =
        [⟨FloatVal.num 1, FloatVal.num 2⟩] := rfl
    simp only [hdrop]
    rw [List.mergeSort]
  have hval : validate_forces [⟨FloatVal.num 1, FloatVal.num 2⟩] =
      Except.ok () := by
    unfold validate_forces
    norm_num [posNeg, magIsNull]
  simp [load_and_validate, hread, hval]

/-- C5 amended: a genuinely-null magnitude cell never triggers
`MissingValueError` — `dropna()` removes its row before validation — so the
pipeline never fails with that error on a table free of NaN-text cells; the
error does remain reachable, but only through a non-null text magnitude such
as "NAN" that survives `dropna()` and is coerced to NaN by `astype(float)`. -/
theorem C5_amended :
    load_and_validate ⟨["x", "force"], [[Cell.num 1, Cell.nanText]]⟩ =
      Except.error BeamError.missingValue ∧
    (∀ t : Table, (∀ row ∈ t.rows, ∀ c ∈ row, c ≠ Cell.nanText) →
      load_and_validate t ≠ Except.error BeamError.missingValue) := by
  constructor
  · have hread : read_forces ⟨["x", "force"], [[Cell.num 1, Cell.nanText]]⟩ =
        Except.ok [⟨FloatVal.num 1, FloatVal.nan⟩] := by
      have hres : resolve_idx ["x", "force"] = Except.ok (0, 1) := rfl
      unfold read_forces
      rw [hres]
      have hdrop : dropnaProject 0 1 [[Cell.num 1, Cell.nanText]] =
          [⟨FloatVal.num 1, FloatVal.nan⟩] := rfl
      simp only [hdrop]
      rw [List.mergeSort]
    have hval : validate_forces [⟨FloatVal.num 1, FloatVal.nan⟩] =
        Except.error BeamError.missingValue := by
      unfold validate_forces
      norm_num [posNeg, magIsNull]
    simp [load_and_validate, hread, hval]
  · intro t hclean
    unfold load_and_validate
    cases hr : read_forces t with
    | error e =>
        have he : e = BeamError.indexError := by
          unfold read_forces at hr
          cases hres : resolve_idx t.cols with
          | error e' =>
              rw [hres] at hr
              have : e' = e := Except.error.inj hr
              exact this ▸ resolve_idx_error t.cols e' hres
          | ok ij => rw [hres] at hr; exact absurd hr (by simp)
        subst he
        simp
    | ok fs =>
        have hfs : fs.any (fun r => magIsNull r.mag) = false := by
          rw [List.any_eq_false]
          intro r hrfs
          have hr' : ∃ ij, resolve_idx t.cols = Except.ok ij ∧
              fs = (dropnaProject ij.1 ij.2 t.rows).mergeSort posLe := by
            unfold read_forces at hr
            cases hres : resolve_idx t.cols with
            | error e' => rw [hres] at hr; exact absurd hr (by simp)
            | ok ij =>
                rw [hres] at hr
                exact ⟨ij, rfl, (Except.ok.inj hr).symm⟩
          obtain ⟨ij, _, rfl⟩ := hr'
          have hmem : r ∈ dropnaProject ij.1 ij.2 t.rows :=
            List.mem_mergeSort.mp hrfs
          have hnn := dropnaProject_mag_not_nan ij.1 ij.2 t.rows hclean r hmem
          simp [hnn]
        cases hv : validate_forces fs with
        | error e' =>
            have hne := validate_forces_ne_missing fs hfs
            rw [hv] at hne
            simp only [hv]
            simpa using hne
        | ok u =>
            simp [hv]

/-- Witness for C5's amended no-NaN-text statement at a concrete table. -/
theorem C5_witness :
    load_and_validate ⟨["x"], []⟩ ≠ Except.error BeamError.missingValue :=
  C5_amended.2 ⟨["x"], []⟩ (by
    intro row hrow c hc
    exact absurd hrow (List.not_mem_nil row))

/-! ## C7 -/

/-- C7 fails on the code: for a single load of 10 at position 20 — outside
the span L = 10 — the Sampler's boundary moment at the right support x = L
is -100, not 0 (within any tolerance). -/
theorem C7_counterexample :
    (compute_reactions [⟨20, 10⟩] 10).1 = -10 ∧
    momentAt [⟨20, 10⟩] (compute_reactions [⟨20, 10⟩] 10).1 10 = -100 := by
  have hra : (compute_reactions [⟨20, 10⟩] 10).1 = -10 := by
    simp [compute_reactions, totalLoad, momentAboutA]
    norm_num
  refine ⟨hra, ?_⟩
  rw [hra]
  have hn : ¬ ((20 : ℚ) ≤ 10 + tol) := by norm_num [tol]
  simp [momentAt, hn]
  norm_num

/-- C7 amended: whenever every load position lies within the span
(`pos ≤ L`) and no load sits inside the tie-break sliver `(0, 1e-12]`, the
moment the Sampler computes at x = 0 and at x = L is exactly 0. -/
theorem C7_amended (forces : List LoadPoint) (L : ℚ) (hL : 0 < L)
    (hin : ∀ r ∈ forces, r.pos ≤ L)
    (hnz : ∀ r ∈ forces, r.pos = 0 ∨ tol < r.pos) :
    momentAt forces (compute_reactions forces L).1 0 = 0 ∧
    momentAt forces (compute_reactions forces L).1 L = 0 := by
  constructor
  · have hsum : ((forces.filter (fun r => r.pos ≤ 0 + tol)).map
        (fun r => r.mag * (0 - r.pos))).sum = 0 := by
      apply List.sum_eq_zero
      intro q hq
      obtain ⟨r, hr, rfl⟩ := List.mem_map.mp hq
      have hrf := List.mem_filter.mp hr
      have hle : r.pos ≤ 0 + tol := of_decide_eq_true hrf.2
      rcases hnz r hrf.1 with h | h
      · rw [h]; ring
      · exfalso
        rw [zero_add] at hle
        linarith
    unfold momentAt
    rw [hsum]
    ring
  · have hfil : forces.filter (fun r => r.pos ≤ L + tol) = forces := by
      apply List.filter_eq_self.mpr
      intro a ha
      exact decide_eq_true (le_trans (hin a ha) (by linarith [tol_pos]))
    unfold momentAt
    rw [hfil, sum_mag_mul_sub]
    have hL0 : L ≠ 0 := ne_of_gt hL
    simp [compute_reactions]
    field_simp
    ring

/-- Witness for C7 at the two-load scenario with L = 10. -/
theorem C7_witness :
    momentAt [⟨2, 10⟩, ⟨6, 10⟩] (compute_reactions [⟨2, 10⟩, ⟨6, 10⟩] 10).1 0 = 0 ∧
    momentAt [⟨2, 10⟩, ⟨6, 10⟩] (compute_reactions [⟨2, 10⟩, ⟨6, 10⟩] 10).1 10 = 0 :=
  C7_amended [⟨2, 10⟩, ⟨6, 10⟩] 10 (by norm_num)
    (by
      intro r hr
      rcases List.mem_cons.mp hr with rfl | hr2
      · norm_num
      · rcases List.mem_cons.mp hr2 with rfl | h3
        · norm_num
        · exact absurd h3 (List.not_mem_nil r))
    (by
      intro r hr
      rcases List.mem_cons.mp hr with rfl | hr2
      · right; norm_num [tol]
      · rcases List.mem_cons.mp hr2 with rfl | h3
        · right; norm_num [tol]
        · exact absurd h3 (List.not_mem_nil r))

/-! ## C8 -/

/-- The running maximum of `foldl max` dominates its seed and every element. -/
theorem foldl_max_bounds (l : List LoadPoint) :
    ∀ b : ℚ, b ≤ l.foldl (fun m s => max m s.pos) b ∧
      ∀ r ∈ l, r.pos ≤ l.foldl (fun m s => max m s.pos) b := by
  induction l with
  | nil =>
      intro b
      exact ⟨le_refl b, by intro r hr; exact absurd hr (List.not_mem_nil r)⟩
  | cons a t ih =>
      intro b
      refine ⟨le_trans (le_max_left b a.pos) (ih (max b a.pos)).1, ?_⟩
      intro r hr
      rcases List.mem_cons.mp hr with rfl | hmem
      · exact le_trans (le_max_right b r.pos) (ih (max b r.pos)).1
      · exact (ih (max b a.pos)).2 r hmem

/-- Every load position is bounded by the column maximum
`forces["pos"].max()`. -/
theorem pos_le_maxPos (forces : List LoadPoint) :
    ∀ r ∈ forces, r.pos ≤ maxPos forces := by
  cases forces with
  | nil => intro r hr; exact absurd hr (List.not_mem_nil r)
  | cons a t =>
      intro r hr
      rcases List.mem_cons.mp hr with rfl | hmem
      · exact (foldl_max_bounds t r.pos).1
      · exact (foldl_max_bounds t a.pos).2 r hmem

/-- C8 fails on the code: for the single valid load (0, 5) the derived span
is max(0*1.2, 0+1) = 1, but the load's position 0 is not strictly positive,
so the load lies at the left support, not strictly inside the span. -/
theorem C8_counterexample :
    derive_span [⟨0, 5⟩] = 1 ∧ ¬ (0 < (⟨0, 5⟩ : LoadPoint).pos) := by
  constructor
  · simp [derive_span, maxPos]
  · norm_num

/-- C8 amended: the span, when not given, is derived as
max(1.2 * max(position), max(position) + 1.0) over a non-empty load set and
as the fixed fallback 10.0 for an empty one, and every load position is
strictly below the derived span (`pos < L`); strict interiority
`0 < pos` additionally requires the position to be nonzero. -/
theorem C8_amended (forces : List LoadPoint) (h : forces ≠ []) :
    derive_span forces =
      max (maxPos forces * (6 / 5)) (maxPos forces + 1) ∧
    derive_span [] = 10 ∧
    ∀ r ∈ forces, r.pos < derive_span forces := by
  have hne : forces.isEmpty = false := by
    cases forces with
    | nil => exact absurd rfl h
    | cons a t => rfl
  have heq : derive_span forces =
      max (maxPos forces * (6 / 5)) (maxPos forces + 1) := by
    unfold derive_span
    rw [hne]
    simp
  refine ⟨heq, rfl, ?_⟩
  intro r hr
  have h1 : r.pos ≤ maxPos forces := pos_le_maxPos forces r hr
  have h2 : maxPos forces + 1 ≤
      max (maxPos forces * (6 / 5)) (maxPos forces + 1) := le_max_right _ _
  rw [heq]
  linarith

/-- Witness for C8 at the single load (2, 10). -/
theorem C8_witness :
    derive_span [⟨2, 10⟩] =
      max (maxPos [⟨2, 10⟩] * (6 / 5)) (maxPos [⟨2, 10⟩] + 1) ∧
    derive_span [] = 10 ∧
    ∀ r ∈ [(⟨2, 10⟩ : LoadPoint)], r.pos < derive_span [(⟨2, 10⟩ : LoadPoint)] :=
  C8_amended [⟨2, 10⟩] (by simp)

/-! ## C9 -/

/-- Entry `i` of the sampled grid is `L * i / (num - 1)`. -/
theorem linspace_getD (L : ℚ) (num i : ℕ) (h : i < num) :
    (linspace L num).getD i 0 = L * i / ((num : ℚ) - 1) := by
  unfold linspace
  rw [List.getD_eq_getElem?_getD, List.getElem?_map, List.getElem?_range h]
  rfl

/-- C9: for every L > 0 and resolution ≥ 2 the Sampler's x grid has exactly
`resolution` entries, entry i equal to L*i/(resolution-1); consecutive
entries differ by the constant step L/(resolution-1), the grid is
non-decreasing, and it spans [0, L] inclusive of both endpoints. -/
theorem C9_sampler_grid (forces : List LoadPoint) (L RA : ℚ) (num : ℕ)
    (hL : 0 < L) (hn : 2 ≤ num) :
    (sample_sfd_bmd forces L RA num).1 = linspace L num ∧
    (linspace L num).length = num ∧
    (∀ i, i < num → (linspace L num).getD i 0 = L * i / ((num : ℚ) - 1)) ∧
    (∀ i, i + 1 < num →
      (linspace L num).getD (i + 1) 0 - (linspace L num).getD i 0 =
        L / ((num : ℚ) - 1)) ∧
    (∀ i j, i ≤ j → j < num →
      (linspace L num).getD i 0 ≤ (linspace L num).getD j 0) ∧
    (linspace L num).getD 0 0 = 0 ∧
    (linspace L num).getD (num - 1) 0 = L := by
  have hden : (0 : ℚ) < (num : ℚ) - 1 := by
    have : (2 : ℚ) ≤ (num : ℚ) := by exact_mod_cast hn
    linarith
  have hden0 : ((num : ℚ) - 1) ≠ 0 := ne_of_gt hden
  refine ⟨rfl, by simp [linspace], linspace_getD L num, ?_, ?_, ?_, ?_⟩
  · intro i hi
    rw [linspace_getD L num (i + 1) hi,
      linspace_getD L num i (Nat.lt_of_succ_lt hi)]
    rw [div_sub_div_same]
    push_cast
    ring_nf
  · intro i j hij hj
    rw [linspace_getD L num i (lt_of_le_of_lt hij hj), linspace_getD L num j hj]
    have hij' : (i : ℚ) ≤ (j : ℚ) := by exact_mod_cast hij
    have hnum : L * (i : ℚ) ≤ L * (j : ℚ) :=
      mul_le_mul_of_nonneg_left hij' (le_of_lt hL)
    exact div_le_div_of_nonneg_right hnum hden.le
  · rw [linspace_getD L num 0 (by omega)]
    simp
  · rw [linspace_getD L num (num - 1) (by omega)]
    have hcast : ((num - 1 : ℕ) : ℚ) = (num : ℚ) - 1 := by
      have h1 : 1 ≤ num := by omega
      push_cast [Nat.cast_sub h1]
      ring
    rw [hcast, mul_div_assoc, div_self hden0, mul_one]

/-- Witness for C9 at L = 10 and resolution 3. -/
theorem C9_witness :
    (sample_sfd_bmd [] 10 0 3).1 = linspace 10 3 ∧
    (linspace 10 3).length = 3 ∧
    (∀ i, i < 3 → (linspace 10 3).getD i 0 = 10 * i / ((3 : ℚ) - 1)) ∧
    (∀ i, i + 1 < 3 →
      (linspace 10 3).getD (i + 1) 0 - (linspace 10 3).getD i 0 =
        10 / ((3 : ℚ) - 1)) ∧
    (∀ i j, i ≤ j → j < 3 →
      (linspace 10 3).getD i 0 ≤ (linspace 10 3).getD j 0) ∧
    (linspace 10 3).getD 0 0 = 0 ∧
    (linspace 10 3).getD (3 - 1) 0 = 10 :=
  C9_sampler_grid [] 10 0 3 (by norm_num) (by norm_num)

/-! ## C10 -/

/-- C10: when keyword resolution fails for at least one role, the fallback
indexes the first two columns unconditionally, so a table with fewer than
two columns fails with the pandas `IndexError` — an error kind outside the
spec's declared taxonomy (SourceUnavailable / SchemaError / TypeError). -/
theorem C10_fallback_indexerror (columns : List String)
    (hfail : candidateCols posKeys (columns.map toLowerStr) = [] ∨
      candidateCols magKeys (columns.map toLowerStr) = [])
    (hlen : columns.length < 2) :
    resolve_idx columns = Except.error BeamError.indexError ∧
    BeamError.indexError ≠ BeamError.sourceUnavailable ∧
    BeamError.indexError ≠ BeamError.schemaError ∧
    BeamError.indexError ≠ BeamError.typeError := by
  refine ⟨?_, by simp, by simp, by simp⟩
  have hcond : (!(candidateCols posKeys (columns.map toLowerStr)).isEmpty &&
      !(candidateCols magKeys (columns.map toLowerStr)).isEmpty) = false := by
    rcases hfail with h | h <;> rw [h] <;> simp
  simp only [resolve_idx, hcond]
  cases columns with
  | nil => rfl
  | cons a t =>
      cases t with
      | nil => rfl
      | cons b u => exact absurd hlen (by simp)

/-- Witness for C10 at the one-column table ["q"]. -/
theorem C10_witness :
    resolve_idx ["q"] = Except.error BeamError.indexError ∧
    BeamError.indexError ≠ BeamError.sourceUnavailable ∧
    BeamError.indexError ≠ BeamError.schemaError ∧
    BeamError.indexError ≠ BeamError.typeError :=
  C10_fallback_indexerror ["q"] (Or.inl rfl) (by norm_num)

end Beam
